import Mathlib

/-!
Verification of the LUKSO example-miniapp-template against its
natural-language specification.

The development shallowly embeds the two source files:

* `upProvider` (the `GridProvider` / `useGrid` connection state store):
  the `ConnectionState` record, the three provider event handlers
  (`accountsChanged`, `contextAccountsChanged`, `chainChanged`), the
  asynchronous `init` routine with its liveness (`mounted`) checks, and
  the `useGrid` accessor.
* `LuksoProfile.tsx` (profile fetch, amount validation, token transfer):
  the IPFS-URL rewrite performed by `fetchProfileImage`, the
  `validateAmount` input validator and the `sendToken` action of the
  `Donate` component.

JavaScript numbers are modelled by `JSNum` (a rational or NaN, which is
exact for every literal appearing in the code), and the event-handler
closures of the React effect are modelled explicitly: a `HandlerEnv`
records the `accounts` / `contextAccounts` values captured when the
handlers were registered, and a separate `effectRerun` step refreshes
that environment, mirroring React re-running the effect when its
dependency array changes.
-/

namespace Miniapp

/-- Blockchain addresses; their structure is irrelevant to the claims. -/
abbrev Addr := String

/-- ConnectionState owned by the Store (`GridProvider`'s state hooks):
`chainId`, `accounts`, `contextAccounts`, `walletConnected`,
`selectedAddress`, `isSearching`. -/
structure ConnState where
  chainId : Nat
  accounts : List Addr
  contextAccounts : List Addr
  walletConnected : Bool
  selectedAddress : Option Addr
  isSearching : Bool
deriving DecidableEq, Repr

/-- Initial state of the Store: `useState(0)`, `useState([])`,
`useState([])`, `useState(false)`, `useState(null)`, `useState(false)`. -/
def initialConnState : ConnState :=
  { chainId := 0
    accounts := []
    contextAccounts := []
    walletConnected := false
    selectedAddress := none
    isSearching := false }

/-- Values captured by the event-handler closures at the moment the
effect registered them (`accounts` and `contextAccounts` as seen by the
effect body). -/
structure HandlerEnv where
  accounts : List Addr
  contextAccounts : List Addr
deriving DecidableEq, Repr

/-- Handler for `accountsChanged`: `setAccounts(_accounts);
setWalletConnected(_accounts.length > 0 && contextAccounts.length > 0)`
where `contextAccounts` is the closure-captured value from `env`. -/
def accountsChanged (env : HandlerEnv) (s : ConnState) (newAccounts : List Addr) : ConnState :=
  { s with
    accounts := newAccounts
    walletConnected := decide (0 < newAccounts.length) && decide (0 < env.contextAccounts.length) }

/-- Handler for `contextAccountsChanged`: `setContextAccounts(_accounts);
setWalletConnected(accounts.length > 0 && _accounts.length > 0)` where
`accounts` is the closure-captured value from `env`. -/
def contextAccountsChanged (env : HandlerEnv) (s : ConnState) (newCtx : List Addr) : ConnState :=
  { s with
    contextAccounts := newCtx
    walletConnected := decide (0 < env.accounts.length) && decide (0 < newCtx.length) }

/-- Handler for `chainChanged`: `setChainId(_chainId)`. -/
def chainChanged (s : ConnState) (newChainId : Nat) : ConnState :=
  { s with chainId := newChainId }

/-- Events applied to the Store after mount: the three provider events,
plus `effectRerun`, which models React re-running the effect (its
dependency array lists `accounts.length` and `contextAccounts.length`)
and re-registering the handlers with fresh closures. -/
inductive GridEvent where
  | accountsChanged (l : List Addr)
  | contextAccountsChanged (l : List Addr)
  | chainChanged (c : Nat)
  | effectRerun
deriving DecidableEq, Repr

/-- Full store state: the published `ConnState` plus the environment the
currently registered handlers close over. -/
structure StoreState where
  st : ConnState
  env : HandlerEnv
deriving DecidableEq, Repr

/-- One event applied to the store, dispatching to the handler from the
source; `effectRerun` refreshes the handler closures from the current
state, exactly as re-running the React effect does. -/
def stepEvent : StoreState → GridEvent → StoreState
  | ⟨s, env⟩, .accountsChanged l => ⟨accountsChanged env s l, env⟩
  | ⟨s, env⟩, .contextAccountsChanged l => ⟨contextAccountsChanged env s l, env⟩
  | ⟨s, env⟩, .chainChanged c => ⟨chainChanged s c, env⟩
  | ⟨s, _⟩, .effectRerun => ⟨s, ⟨s.accounts, s.contextAccounts⟩⟩

/-- Store state right after the first mount: default state, handlers
registered over the (then empty) `accounts` / `contextAccounts`. -/
def mountedStore : StoreState :=
  ⟨initialConnState, ⟨initialConnState.accounts, initialConnState.contextAccounts⟩⟩

/-- One state write issued by the `init` routine (one of its four
`set...` calls). -/
inductive InitWrite where
  | setChainId (c : Nat)
  | setAccounts (l : List Addr)
  | setContextAccounts (l : List Addr)
  | setWalletConnected (b : Bool)
deriving DecidableEq, Repr

/-- Apply one `init` write to the connection state. -/
def applyWrite (s : ConnState) : InitWrite → ConnState
  | .setChainId c => { s with chainId := c }
  | .setAccounts l => { s with accounts := l }
  | .setContextAccounts l => { s with contextAccounts := l }
  | .setWalletConnected b => { s with walletConnected := b }

/-- Apply a sequence of `init` writes in order. -/
def applyWrites (s : ConnState) (ws : List InitWrite) : ConnState :=
  ws.foldl applyWrite s

/-- The `init` routine of the effect, as the list of state writes it
performs.  `hasBridge` is whether `client`/`provider` are non-null;
`qChain` / `qAccounts` are the results of the two awaited queries
(`.error` = rejected promise, swallowed by the `try/catch`);
`ctxSnapshot` is the synchronous `provider.contextAccounts` read;
`m1`, `m2`, `m3` are the values of the `mounted` flag at the three
`if (!mounted) return` liveness checks.  The routine is total: a query
error ends it after the writes already made, and nothing escapes to the
caller. -/
def init (hasBridge : Bool) (qChain : Except String Nat) (m1 : Bool)
    (qAccounts : Except String (List Addr)) (m2 : Bool)
    (ctxSnapshot : List Addr) (m3 : Bool) : List InitWrite :=
  if !hasBridge then []
  else
    match qChain with
    | .error _ => []
    | .ok c =>
      if !m1 then []
      else
        .setChainId c ::
          match qAccounts with
          | .error _ => []
          | .ok accs =>
            if !m2 then []
            else
              .setAccounts accs ::
                if !m3 then []
                else
                  [.setContextAccounts ctxSnapshot,
                   .setWalletConnected
                     (decide (0 < accs.length) && decide (0 < ctxSnapshot.length))]

/-- Value held by the React context: presence of the provider and client
handles plus the published connection state (the setters of the
interface act on the state and are modelled by the handlers above). -/
structure GridContextValue where
  hasProvider : Bool
  hasClient : Bool
  state : ConnState
deriving DecidableEq, Repr

/-- Accessor `useGrid`: reads the context (`none` when no `GridProvider`
encloses the caller) and throws `"useGrid must be used within a
GridProvider"` when it is absent. -/
def useGrid (ctx : Option GridContextValue) : Except String GridContextValue :=
  match ctx with
  | none => .error "useGrid must be used within a GridProvider"
  | some c => .ok c

/-! ### JavaScript numbers and the `Donate` component -/

/-- JavaScript number, restricted to the values reachable in this code:
a rational (exact for every literal the component handles) or NaN. -/
inductive JSNum where
  | nan
  | num (q : ℚ)
deriving DecidableEq, Repr

/-- JavaScript `<` on numbers: any comparison with NaN is false. -/
def jslt : JSNum → JSNum → Bool
  | .num a, .num b => decide (a < b)
  | _, _ => false

/-- JavaScript `>` on numbers: any comparison with NaN is false. -/
def jsgt : JSNum → JSNum → Bool
  | .num a, .num b => decide (b < a)
  | _, _ => false

/-- JavaScript truthiness of a number: `0` and NaN are falsy. -/
def jsTruthy : JSNum → Bool
  | .nan => false
  | .num q => decide (q ≠ 0)

/-- Lower bound of the donate amount (`minAmount = 1.0`; JavaScript
renders it as `"1"` in template strings). -/
def minAmount : ℚ := 1

/-- Upper bound of the donate amount (`maxAmount = 1000`). -/
def maxAmount : ℚ := 1000

/-- Validator `validateAmount` of the `Donate` component, returning the
pair `(error, amount)` it stores via `setError` / `setAmount`.  The
message strings carry `${minAmount}` / `${maxAmount}` interpolated as
JavaScript prints them (`1.0` → `"1"`, `1000` → `"1000"`). -/
def validateAmount (value : JSNum) : String × JSNum :=
  if jslt value (.num minAmount) then
    ("Amount must be at least 1 LYX.", value)
  else if jsgt value (.num maxAmount) then
    ("Amount cannot exceed 1000 LYX.", value)
  else
    ("", value)

/-- Action `sendToken` of the `Donate` component, as the number of
`client.sendTransaction` submissions it performs: `if (!client ||
!walletConnected || !amount) return;` then exactly one submission. -/
def sendToken (hasClient : Bool) (walletConnected : Bool) (amount : JSNum) : Nat :=
  if !hasClient || !walletConnected || !(jsTruthy amount) then 0 else 1

/-! ### Profile metadata fetch and the IPFS-URL rewrite -/

/-- Character-level check that `pat` occurs at the head of the list. -/
def startsWith : List Char → List Char → Bool
  | [], _ => true
  | _ :: _, [] => false
  | p :: ps, c :: cs => p == c && startsWith ps cs

/-- JavaScript `String.prototype.replace` with a string pattern on
character lists: replaces the first occurrence of `pat` (if any) by
`rep` and leaves the rest unchanged. -/
def replaceFirstChars (pat rep : List Char) : List Char → List Char
  | [] => if pat.isEmpty then rep else []
  | c :: cs =>
    if startsWith pat (c :: cs) then rep ++ (c :: cs).drop pat.length
    else c :: replaceFirstChars pat rep cs

/-- JavaScript `s.replace(pat, rep)` for string patterns (first
occurrence only, unlike Lean's `String.replace`). -/
def jsReplace (pat rep s : String) : String :=
  ⟨replaceFirstChars pat.data rep.data s.data⟩

/-- IPFS gateway prefix used by the component. -/
def IPFS_GATEWAY : String := "https://api.universalprofile.cloud/ipfs/"

/-- Image entry of an LSP3 profile document: an object with a `url`. -/
structure LSP3Image where
  url : String
deriving DecidableEq, Repr

/-- Fetched `LSP3Profile` value: name plus the two image arrays. -/
structure LSP3ProfileData where
  name : String
  profileImage : List LSP3Image
  backgroundImage : List LSP3Image
deriving DecidableEq, Repr

/-- Default avatar used before any fetch succeeds. -/
def defaultProfileImgUrl : String :=
  "https://tools-web-components.pages.dev/images/sample-avatar.jpg"

/-- State of the `LuksoProfile` component exposed to rendering. -/
structure ProfileView where
  profileImgUrl : String
  fullName : String
  profileBackground : String
deriving DecidableEq, Repr

/-- Initial `LuksoProfile` state: sample avatar, empty name and
background. -/
def initialProfileView : ProfileView :=
  { profileImgUrl := defaultProfileImgUrl
    fullName := ""
    profileBackground := "" }

/-- State updates performed by `fetchProfileImage` on a successfully
fetched profile: store the name, and when a first image entry exists,
store its `url` with `url.replace('ipfs://', IPFS_GATEWAY)` applied, for
both the avatar and the background. -/
def applyFetchedProfile (v : ProfileView) (p : LSP3ProfileData) : ProfileView :=
  let v1 := { v with fullName := p.name }
  let v2 :=
    match p.profileImage with
    | img :: _ => { v1 with profileImgUrl := jsReplace "ipfs://" IPFS_GATEWAY img.url }
    | [] => v1
  match p.backgroundImage with
  | img :: _ => { v2 with profileBackground := jsReplace "ipfs://" IPFS_GATEWAY img.url }
  | [] => v2

/-! ### Helper lemmas -/

/-- A list occurs at the head of itself followed by anything. -/
theorem startsWith_self_append (pat t : List Char) : startsWith pat (pat ++ t) = true := by
  induction pat with
  | nil => rfl
  | cons p ps ih => simp [startsWith, ih]

/-- Replacing the first occurrence of a non-empty pattern in a string
that begins with that pattern substitutes it at the head. -/
theorem replaceFirstChars_self_append (pat rep t : List Char) (h : pat ≠ []) :
    replaceFirstChars pat rep (pat ++ t) = rep ++ t := by
  cases pat with
  | nil => exact absurd rfl h
  | cons p ps =>
    have hs : startsWith (p :: ps) (p :: (ps ++ t)) = true := by
      simpa using startsWith_self_append (p :: ps) t
    simp [replaceFirstChars, hs, List.drop_left]

/-- Unfolding of `validateAmount` on a non-NaN value into propositional
ifs over the two bounds. -/
theorem validateAmount_num (q : ℚ) :
    validateAmount (.num q) =
      if q < minAmount then ("Amount must be at least 1 LYX.", JSNum.num q)
      else if maxAmount < q then ("Amount cannot exceed 1000 LYX.", JSNum.num q)
      else ("", JSNum.num q) := by
  simp [validateAmount, jslt, jsgt]

/-- The `url.replace('ipfs://', IPFS_GATEWAY)` rewrite sends
`ipfs://<cid>` to `<gateway><cid>`. -/
theorem jsReplace_ipfs_gateway (cid : String) :
    jsReplace "ipfs://" IPFS_GATEWAY ("ipfs://" ++ cid) = IPFS_GATEWAY ++ cid := by
  apply String.ext
  show replaceFirstChars "ipfs://".data IPFS_GATEWAY.data ("ipfs://" ++ cid).data
      = (IPFS_GATEWAY ++ cid).data
  rw [String.data_append, String.data_append]
  exact replaceFirstChars_self_append "ipfs://".data IPFS_GATEWAY.data cid.data (by decide)

/-! ### Claims -/

/-- C1: the claim requires `connected` after each account event to equal
the conjunction of non-emptiness of the two account sequences in the
post-event state; the code instead uses the closure-captured values.
Concretely, starting from the freshly mounted store, firing
`accountsChanged ["0xa"]` and then `contextAccountsChanged ["0xb"]`
before the effect re-runs leaves `walletConnected = false` even though
both stored sequences are non-empty. -/
theorem connected_stale_after_rapid_events :
    (stepEvent (stepEvent mountedStore (GridEvent.accountsChanged ["0xa"]))
        (GridEvent.contextAccountsChanged ["0xb"])).st.accounts = ["0xa"] ∧
    (stepEvent (stepEvent mountedStore (GridEvent.accountsChanged ["0xa"]))
        (GridEvent.contextAccountsChanged ["0xb"])).st.contextAccounts = ["0xb"] ∧
    (stepEvent (stepEvent mountedStore (GridEvent.accountsChanged ["0xa"]))
        (GridEvent.contextAccountsChanged ["0xb"])).st.walletConnected = false := by
  decide

/-- C2: when the store is unmounted before any initialization query
resolves, the `mounted` flag is `false` at every liveness check, so
`init` performs zero state writes and the connection state is untouched. -/
theorem unmount_before_init_resolution_writes_nothing
    (hasBridge : Bool) (qChain : Except String Nat)
    (qAccounts : Except String (List Addr)) (ctxSnapshot : List Addr) (s : ConnState) :
    init hasBridge qChain false qAccounts false ctxSnapshot false = [] ∧
    applyWrites s (init hasBridge qChain false qAccounts false ctxSnapshot false) = s := by
  have h : init hasBridge qChain false qAccounts false ctxSnapshot false = [] := by
    cases hasBridge <;> cases qChain <;> simp [init]
  exact ⟨h, by rw [h]; rfl⟩

/-- C3: with no provider bridge (`client`/`provider` null), `init`
performs no writes regardless of the other inputs — it is a total
function, so no error reaches the caller — and the store stays in the
default terminal state: `chainId = 0`, both account sequences empty,
`connected = false`. -/
theorem init_without_bridge_keeps_default_state
    (qChain : Except String Nat) (m1 : Bool)
    (qAccounts : Except String (List Addr)) (m2 : Bool)
    (ctxSnapshot : List Addr) (m3 : Bool) :
    init false qChain m1 qAccounts m2 ctxSnapshot m3 = [] ∧
    applyWrites initialConnState (init false qChain m1 qAccounts m2 ctxSnapshot m3)
      = initialConnState ∧
    initialConnState.chainId = 0 ∧
    initialConnState.accounts = [] ∧
    initialConnState.contextAccounts = [] ∧
    initialConnState.walletConnected = false := by
  refine ⟨by simp [init], ?_, rfl, rfl, rfl, rfl⟩
  simp [init, applyWrites]

/-- C4: calling `useGrid` with no enclosing provider context
deterministically yields the configuration error, and with a context
value present it returns exactly that value, never a default. -/
theorem useGrid_outside_provider_throws :
    useGrid none = Except.error "useGrid must be used within a GridProvider" ∧
    ∀ c : GridContextValue, useGrid (some c) = Except.ok c :=
  ⟨rfl, fun _ => rfl⟩

/-- C5: `validateAmount` maps `0.5` to the minimum-bound error, `1500`
to the maximum-bound error and `50` to no error with accepted value
`50`; in general, values below `minAmount` produce the first message,
values above `maxAmount` the second, and in-range values clear the
error, the input value being stored in every case. -/
theorem validateAmount_bounds_spec :
    validateAmount (.num 0.5) = ("Amount must be at least 1 LYX.", .num 0.5) ∧
    validateAmount (.num 1500) = ("Amount cannot exceed 1000 LYX.", .num 1500) ∧
    validateAmount (.num 50) = ("", .num 50) ∧
    ∀ q : ℚ,
      (q < minAmount →
        validateAmount (.num q) = ("Amount must be at least 1 LYX.", .num q)) ∧
      (maxAmount < q →
        validateAmount (.num q) = ("Amount cannot exceed 1000 LYX.", .num q)) ∧
      (minAmount ≤ q → q ≤ maxAmount → validateAmount (.num q) = ("", .num q)) := by
  have hm : minAmount = (1 : ℚ) := rfl
  have hM : maxAmount = (1000 : ℚ) := rfl
  refine ⟨?_, ?_, ?_, fun q => ⟨fun h => ?_, fun h => ?_, fun h1 h2 => ?_⟩⟩
  · norm_num [validateAmount, jslt, jsgt, minAmount, maxAmount]
  · norm_num [validateAmount, jslt, jsgt, minAmount, maxAmount]
  · norm_num [validateAmount, jslt, jsgt, minAmount, maxAmount]
  · rw [validateAmount_num, if_pos h]
  · have hq : (1000 : ℚ) < q := hM ▸ h
    have h' : ¬ q < minAmount := by
      rw [hm]
      linarith
    rw [validateAmount_num, if_neg h', if_pos h]
  · rw [validateAmount_num, if_neg (not_lt.mpr h1), if_neg (not_lt.mpr h2)]

/-- Witness for C5 at the concrete in-range input `2`. -/
theorem validateAmount_bounds_spec_witness :
    validateAmount (.num 2) = ("", .num 2) :=
  (validateAmount_bounds_spec.2.2.2 2).2.2
    (by norm_num [minAmount]) (by norm_num [maxAmount])

/-- C6: the `chainChanged` handler replaces `chainId` with the new value
and leaves every other field of the state — and the handler closures —
unchanged. -/
theorem chainChanged_updates_only_chainId (ss : StoreState) (c : Nat) :
    (stepEvent ss (GridEvent.chainChanged c)).st.chainId = c ∧
    (stepEvent ss (GridEvent.chainChanged c)).st.accounts = ss.st.accounts ∧
    (stepEvent ss (GridEvent.chainChanged c)).st.contextAccounts = ss.st.contextAccounts ∧
    (stepEvent ss (GridEvent.chainChanged c)).st.walletConnected = ss.st.walletConnected ∧
    (stepEvent ss (GridEvent.chainChanged c)).st.selectedAddress = ss.st.selectedAddress ∧
    (stepEvent ss (GridEvent.chainChanged c)).st.isSearching = ss.st.isSearching ∧
    (stepEvent ss (GridEvent.chainChanged c)).env = ss.env := by
  cases ss with
  | mk s env => simp [stepEvent, chainChanged]

/-- C7: a fetched profile whose avatar (respectively background) image
url is `ipfs://<cid>` is exposed with that field rewritten to the
gateway url `<gateway><cid>`; in particular `ipfs://abc123` becomes the
gateway followed by `abc123`. -/
theorem ipfs_reference_rewritten_to_gateway
    (v : ProfileView) (nm : String) (cid : String)
    (restImgs restBgs bgs : List LSP3Image) (imgs : List LSP3Image) :
    (applyFetchedProfile v ⟨nm, ⟨"ipfs://" ++ cid⟩ :: restImgs, bgs⟩).profileImgUrl
      = IPFS_GATEWAY ++ cid ∧
    (applyFetchedProfile v ⟨nm, imgs, ⟨"ipfs://" ++ cid⟩ :: restBgs⟩).profileBackground
      = IPFS_GATEWAY ++ cid ∧
    (applyFetchedProfile initialProfileView ⟨nm, [⟨"ipfs://abc123"⟩], []⟩).profileImgUrl
      = "https://api.universalprofile.cloud/ipfs/abc123" := by
  refine ⟨?_, ?_, ?_⟩
  · cases bgs <;> simp [applyFetchedProfile, jsReplace_ipfs_gateway]
  · cases imgs <;> simp [applyFetchedProfile, jsReplace_ipfs_gateway]
  · have h : (applyFetchedProfile initialProfileView
        ⟨nm, [⟨"ipfs://abc123"⟩], []⟩).profileImgUrl
        = jsReplace "ipfs://" IPFS_GATEWAY "ipfs://abc123" := rfl
    rw [h]
    decide

/-- C8 counterexample: with the client handle present and
`walletConnected = true` but the stored amount `0`, `sendToken` performs
zero submission calls, not one. -/
theorem sendToken_zero_amount_counterexample :
    sendToken true true (JSNum.num 0) ≠ 1 := by
  decide

/-- C8 (amended): `sendToken` performs exactly one submission call when
the client handle is present, `walletConnected = true` and the stored
amount is truthy (neither `0` nor NaN); it performs none when the handle
is absent, the wallet is not connected, or the amount is falsy. -/
theorem sendToken_submission_spec (hasClient wc : Bool) (amount : JSNum) :
    (hasClient = true → wc = true → jsTruthy amount = true →
      sendToken hasClient wc amount = 1) ∧
    (hasClient = false ∨ wc = false ∨ jsTruthy amount = false →
      sendToken hasClient wc amount = 0) := by
  constructor
  · intro h1 h2 h3
    simp [sendToken, h1, h2, h3]
  · intro h
    rcases h with h | h | h <;> simp [sendToken, h]

/-- Witness for C8 at the concrete input where a submission happens. -/
theorem sendToken_submission_spec_witness :
    sendToken true true (JSNum.num 5) = 1 :=
  (sendToken_submission_spec true true (JSNum.num 5)).1 rfl rfl (by decide)

/-- C9: a NaN amount (e.g. a cleared input field parsed by
`Number.parseFloat`) clears the error message — both bound comparisons
are false on NaN — and NaN is stored as the current amount. -/
theorem validateAmount_nan_clears_error :
    validateAmount .nan = ("", .nan) := rfl

/-- C10: regardless of the client handle and connection flag — in
particular when both are present/true — `sendToken` submits nothing when
the stored amount is `0` or NaN. -/
theorem sendToken_noop_on_zero_or_nan (hasClient wc : Bool) :
    sendToken hasClient wc (JSNum.num 0) = 0 ∧
    sendToken hasClient wc JSNum.nan = 0 := by
  cases hasClient <;> cases wc <;> exact ⟨by decide, by decide⟩

end Miniapp
